import Mathlib

/-!
Verification of `sandbox/docs/jupytext/matplotlib.py`, a jupytext
percent-format notebook whose YAML header declares slide output formats and
whose single code cell builds a grouped bar chart.

The development embeds three views of the file:
1. the YAML metadata header, transcribed as a `Yaml` value;
2. the code cell as the sequence of assignments and plotting calls it
   visibly contains, with an executable semantics for the plotting calls;
3. the code cell as literal Python source text, with a model of the Python 3
   lexical and statement grammar rules relevant to that text.
-/

set_option autoImplicit false
set_option maxRecDepth 100000

namespace MplSlides

/-! ### YAML metadata header (source lines 1-26) -/

/-- A fragment of YAML large enough for the notebook's metadata header. -/
inductive Yaml where
  | str (s : String) : Yaml
  | bool (b : Bool) : Yaml
  | num (n : Nat) : Yaml
  | map (entries : List (String × Yaml)) : Yaml

/-- Look a key up in a YAML mapping. -/
def Yaml.lookup (k : String) : Yaml → Option Yaml
  | .map es => es.lookup k
  | _ => none

/-- The keys of a YAML mapping, in order. -/
def Yaml.keys : Yaml → List String
  | .map es => es.map Prod.fst
  | _ => []

/-- The YAML metadata header of the file, transcribed from source lines 1-26. -/
def headerYaml : Yaml := .map [
  ("title", .str "MPL slides"),
  ("execute", .bool false),
  ("format", .map [
    ("pdf", .str "default"),
    ("beamer", .map [("keep-tex", .bool true)]),
    ("revealjs", .map [("template", .str "revealjs.template")])]),
  ("knit", .str "quarto render"),
  ("editor_options", .map [
    ("markdown", .map [("wrap", .num 72)])]),
  ("jupyter", .map [
    ("jupytext", .map [
      ("formats", .str "ipynb,md,py:percent"),
      ("text_representation", .map [
        ("extension", .str ".py"),
        ("format_name", .str "percent"),
        ("format_version", .str "1.3"),
        ("jupytext_version", .str "1.6.0")])]),
    ("kernelspec", .map [
      ("display_name", .str "Python 3"),
      ("language", .str "python"),
      ("name", .str "python3")])])]

/-! ### The five literal sequences and the width scalar (source lines 35-38) -/

/-- Source line 35: the category labels. -/
def labels : List String := ["G1", "G2", "G3", "G4", "G6"]

/-- Source line 35: the means for the Men series. -/
def men_means : List ℚ := [20, 35, 30, 35, 27]

/-- Source line 36: the means for the Women series. -/
def women_means : List ℚ := [25, 32, 34, 20, 25]

/-- Source line 36: the standard deviations for the Men series. -/
def men_std : List ℚ := [2, 3, 4, 1, 2]

/-- Source lines 36-37: the standard deviations for the Women series. -/
def women_std : List ℚ := [3, 5, 2, 3, 3]

/-- Source line 37: the bar width scalar. -/
def width : ℚ := 0.35

/-! ### The code cell as a statement sequence

The cell (source lines 35-47) visibly consists of six assignments of
literals, a `plt.subplots()` call binding `fig` and `ax`, two `ax.bar`
calls, `ax.set_ylabel`, `ax.set_title`, `ax.legend` and `plt.show`.  We
embed exactly those statement forms, together with the control-flow forms
of Python (conditionals, loops, function definitions) so that the absence
of control flow in the cell is a checkable property rather than one true
by construction. -/

/-- A runtime value of the embedded cell program. -/
inductive PyVal where
  | num (q : ℚ)
  | str (s : String)
  | numList (xs : List ℚ)
  | strList (xs : List String)
  | obj (tag : String)
deriving DecidableEq

/-- An expression of the embedded cell program: a literal or a name. -/
inductive PyExpr where
  | lit (v : PyVal)
  | name (x : String)
deriving DecidableEq

/-- Statements: the forms occurring in the cell, plus Python's control-flow
forms (which the cell does not use). -/
inductive Stmt where
  | assign (x : String) (e : PyExpr)
  | subplots (figName axName : String)
  | bar (x heights w : PyExpr) (yerr bottom label : Option PyExpr)
  | set_ylabel (e : PyExpr)
  | set_title (e : PyExpr)
  | legend
  | pltShow
  | ifElse (c : PyExpr) (thenB elseB : List Stmt)
  | whileLoop (c : PyExpr) (body : List Stmt)
  | funcDef (nm : String) (body : List Stmt)

/-- One bar series of a figure, as recorded by a `bar` call. -/
structure BarSeries where
  xs : List String
  heights : List ℚ
  width : ℚ
  yerr : Option (List ℚ)
  bottoms : List ℚ
  label : Option String
deriving DecidableEq

/-- The figure state built up by the plotting calls. -/
structure Figure where
  series : List BarSeries
  ylabel : Option String
  title : Option String
  legendEntries : Option (List String)
  shown : Bool
deriving DecidableEq

/-- The empty figure, before any plotting call. -/
def emptyFigure : Figure :=
  { series := [], ylabel := none, title := none, legendEntries := none,
    shown := false }

/-- Variable environments: newest binding first. -/
def Env : Type := List (String × PyVal)

/-- Evaluate an expression: literals evaluate to themselves, names are
looked up in the environment (a missing name is a `NameError`). -/
def evalExpr (env : Env) : PyExpr → Except String PyVal
  | .lit v => .ok v
  | .name x =>
    match List.lookup x env with
    | some v => .ok v
    | none => .error ("NameError: " ++ x)

/-- Coerce a value to a list of numbers. -/
def asNumList : PyVal → Except String (List ℚ)
  | .numList xs => .ok xs
  | _ => .error "TypeError: expected a numeric sequence"

/-- Coerce a value to a list of strings. -/
def asStrList : PyVal → Except String (List String)
  | .strList xs => .ok xs
  | _ => .error "TypeError: expected a string sequence"

/-- Coerce a value to a number. -/
def asNum : PyVal → Except String ℚ
  | .num q => .ok q
  | _ => .error "TypeError: expected a number"

/-- Coerce a value to a string. -/
def asStr : PyVal → Except String String
  | .str s => .ok s
  | _ => .error "TypeError: expected a string"

/-- Python truthiness of a value, used by the control-flow forms. -/
def PyVal.truthy : PyVal → Bool
  | .num q => q != 0
  | .str s => s != ""
  | .numList xs => !xs.isEmpty
  | .strList xs => !xs.isEmpty
  | .obj _ => true

/-- Evaluate an optional numeric-sequence argument. -/
def evalOptNumList (env : Env) : Option PyExpr → Except String (Option (List ℚ))
  | none => .ok none
  | some e => do
    let v ← evalExpr env e
    let xs ← asNumList v
    .ok (some xs)

/-- Evaluate an optional string argument. -/
def evalOptStr (env : Env) : Option PyExpr → Except String (Option String)
  | none => .ok none
  | some e => do
    let v ← evalExpr env e
    let s ← asStr v
    .ok (some s)

/-- Modelled from the spec: `ax.bar` of the plotting library (matplotlib),
which is external to this repository.  Per spec sections 4.1 and 7, the
library fails exactly on malformed input such as mismatched sequence
lengths, and otherwise records one bar series; an absent `bottom` means the
bars start at 0. -/
def execBar (env : Env) (fig : Figure) (x heights w : PyExpr)
    (yerr bottom label : Option PyExpr) : Except String Figure := do
  let xs ← asStrList (← evalExpr env x)
  let hs ← asNumList (← evalExpr env heights)
  let wq ← asNum (← evalExpr env w)
  let ye ← evalOptNumList env yerr
  let bo ← evalOptNumList env bottom
  let la ← evalOptStr env label
  let n := xs.length
  if hs.length == n && ye.all (fun l => l.length == n)
      && bo.all (fun l => l.length == n) then
    .ok { fig with series := fig.series ++
      [{ xs := xs, heights := hs, width := wq, yerr := ye,
         bottoms := bo.getD (List.replicate n 0), label := la }] }
  else
    .error "ValueError: shape mismatch"

/-- Run a statement list with the given fuel; `none` means the fuel ran
out, `some (.error m)` a runtime error, `some (.ok (env, fig))` normal
completion.  The plotting statements' effects are modelled from the spec
(section 4.1): they mutate the figure and raise no error beyond the shape
check in `execBar`. -/
def exec : Nat → List Stmt → Env → Figure → Option (Except String (Env × Figure))
  | 0, _, _, _ => none
  | _ + 1, [], env, fig => some (.ok (env, fig))
  | fuel + 1, s :: rest, env, fig =>
    match s with
    | .assign x e =>
      match evalExpr env e with
      | .error m => some (.error m)
      | .ok v => exec fuel rest ((x, v) :: env) fig
    | .subplots figName axName =>
      exec fuel rest ((axName, .obj "Axes") :: (figName, .obj "Figure") :: env)
        emptyFigure
    | .bar x heights w yerr bottom label =>
      match execBar env fig x heights w yerr bottom label with
      | .error m => some (.error m)
      | .ok fig2 => exec fuel rest env fig2
    | .set_ylabel e =>
      match evalExpr env e >>= asStr with
      | .error m => some (.error m)
      | .ok s2 => exec fuel rest env { fig with ylabel := some s2 }
    | .set_title e =>
      match evalExpr env e >>= asStr with
      | .error m => some (.error m)
      | .ok s2 => exec fuel rest env { fig with title := some s2 }
    | .legend =>
      exec fuel rest env
        { fig with legendEntries := some (fig.series.filterMap BarSeries.label) }
    | .pltShow => exec fuel rest env { fig with shown := true }
    | .ifElse c thenB elseB =>
      match evalExpr env c with
      | .error m => some (.error m)
      | .ok v => exec fuel ((if v.truthy then thenB else elseB) ++ rest) env fig
    | .whileLoop c body =>
      match evalExpr env c with
      | .error m => some (.error m)
      | .ok v =>
        if v.truthy then exec fuel (body ++ .whileLoop c body :: rest) env fig
        else exec fuel rest env fig
    | .funcDef nm _ => exec fuel rest ((nm, .obj "function") :: env) fig

/-- The statement sequence of the code cell, transcribed from source
lines 35-47. -/
def cellStmts : List Stmt := [
  .assign "labels" (.lit (.strList labels)),
  .assign "men_means" (.lit (.numList men_means)),
  .assign "women_means" (.lit (.numList women_means)),
  .assign "men_std" (.lit (.numList men_std)),
  .assign "women_std" (.lit (.numList women_std)),
  .assign "width" (.lit (.num 0.35)),
  .subplots "fig" "ax",
  .bar (.name "labels") (.name "men_means") (.name "width")
    (some (.name "men_std")) none (some (.lit (.str "Men"))),
  .bar (.name "labels") (.name "women_means") (.name "width")
    (some (.name "women_std")) (some (.name "men_means"))
    (some (.lit (.str "Women"))),
  .set_ylabel (.lit (.str "Scores")),
  .set_title (.lit (.str "Scores broken out by group and gender")),
  .legend,
  .pltShow]

/-- Run the cell from the empty environment and the empty figure. -/
def runCell : Option (Except String (Env × Figure)) :=
  exec (cellStmts.length + 1) cellStmts [] emptyFigure

/-- Extract the figure from a successful run. -/
def resultFigure : Option (Except String (Env × Figure)) → Option Figure
  | some (.ok (_, fig)) => some fig
  | _ => none

/-- The figure the cell's statements produce. -/
def cellFigure : Figure :=
  { series := [
      { xs := labels, heights := men_means, width := 0.35,
        yerr := some men_std, bottoms := List.replicate 5 0,
        label := some "Men" },
      { xs := labels, heights := women_means, width := 0.35,
        yerr := some women_std, bottoms := men_means,
        label := some "Women" }],
    ylabel := some "Scores",
    title := some "Scores broken out by group and gender",
    legendEntries := some ["Men", "Women"],
    shown := true }

/-- A statement is straight-line when it is not a conditional, a loop or a
function definition. -/
def Stmt.isStraightLine : Stmt → Bool
  | .ifElse _ _ _ => false
  | .whileLoop _ _ => false
  | .funcDef _ _ => false
  | _ => true

/-- The `(target, value)` pairs of the assignment statements of a list. -/
def assignments (stmts : List Stmt) : List (String × PyExpr) :=
  stmts.filterMap fun s =>
    match s with
    | .assign x e => some (x, e)
    | _ => none

/-- The argument tuples of the `bar` statements of a list:
`(x, heights, width, yerr, bottom, label)`. -/
def barCalls (stmts : List Stmt) :
    List (PyExpr × PyExpr × PyExpr × Option PyExpr × Option PyExpr × Option PyExpr) :=
  stmts.filterMap fun s =>
    match s with
    | .bar x heights w yerr bottom label => some (x, heights, w, yerr, bottom, label)
    | _ => none

/-! ### The code cell as Python source text (source lines 33-47)

A model of the Python 3 lexical rules and simple-statement grammar (the
language named by the header's kernelspec, external to this repository)
restricted to the constructs the cell's text uses: identifiers, numbers,
single-quoted strings, list and call displays, attribute access, keyword
arguments, assignments, `;`-separated simple statements, `#` comments,
implicit line joining inside brackets, explicit line joining by a
backslash before a newline, and the rule that one logical line holds at
most one simple-statement chain. -/

/-- The single-quote character. -/
def quoteChar : Char := Char.ofNat 39

/-- The backslash character. -/
def backslashChar : Char := Char.ofNat 92

/-- The backtick character (not a valid Python 3 token). -/
def backtickChar : Char := Char.ofNat 96

/-- The newline character. -/
def newlineChar : Char := Char.ofNat 10

/-- Characters that may start an identifier. -/
def isIdentStart (c : Char) : Bool := c.isAlpha || c = '_'

/-- Characters that may continue an identifier. -/
def isIdentChar (c : Char) : Bool := c.isAlphanum || c = '_'

/-- Characters that may continue a numeric literal. -/
def isNumChar (c : Char) : Bool := c.isDigit || c = '.'

/-- Tokens of the modelled fragment of Python. -/
inductive Tok where
  | ident (s : String)
  | numLit (s : String)
  | strLit (s : String)
  | lbrack | rbrack | lparen | rparen
  | comma | eq | dot | semi | colon | newline
deriving DecidableEq, Repr

/-- Lexical errors. -/
inductive LexErr where
  | strayBackslash
  | unterminatedString
  | badChar (c : Char)
  | outOfFuel
deriving DecidableEq, Repr

/-- Scan a single-quoted string body: the content up to the closing quote,
and the rest.  A newline or the end of input before the closing quote is
an error (`none`), as in Python. -/
def scanStr : List Char → Option (List Char × List Char)
  | [] => none
  | c :: cs =>
    if c = quoteChar then some ([], cs)
    else if c = newlineChar then none
    else
      match scanStr cs with
      | some (content, rest) => some (c :: content, rest)
      | none => none

/-- Tokenize with the given fuel, tracking the bracket-nesting depth:
newlines inside brackets are joined implicitly, a backslash joins lines
explicitly and is an error anywhere else, and `#` starts a comment. -/
def lexToks : Nat → Nat → List Char → Except LexErr (List Tok)
  | 0, _, _ => .error .outOfFuel
  | _ + 1, _, [] => .ok []
  | fuel + 1, depth, c :: cs =>
    if c = ' ' then lexToks fuel depth cs
    else if c = newlineChar then
      if depth = 0 then
        match lexToks fuel depth cs with
        | .error e => .error e
        | .ok ts => .ok (.newline :: ts)
      else lexToks fuel depth cs
    else if c = '#' then lexToks fuel depth (cs.dropWhile (fun d => d ≠ newlineChar))
    else if c = backslashChar then
      match cs with
      | d :: cs2 =>
        if d = newlineChar then lexToks fuel depth cs2
        else .error .strayBackslash
      | [] => .error .strayBackslash
    else if c = quoteChar then
      match scanStr cs with
      | some (content, rest) =>
        match lexToks fuel depth rest with
        | .error e => .error e
        | .ok ts => .ok (.strLit (String.mk content) :: ts)
      | none => .error .unterminatedString
    else if isIdentStart c then
      match lexToks fuel depth (cs.dropWhile isIdentChar) with
      | .error e => .error e
      | .ok ts => .ok (.ident (String.mk (c :: cs.takeWhile isIdentChar)) :: ts)
    else if c.isDigit then
      match lexToks fuel depth (cs.dropWhile isNumChar) with
      | .error e => .error e
      | .ok ts => .ok (.numLit (String.mk (c :: cs.takeWhile isNumChar)) :: ts)
    else if c = '[' then
      match lexToks fuel (depth + 1) cs with
      | .error e => .error e
      | .ok ts => .ok (.lbrack :: ts)
    else if c = ']' then
      match lexToks fuel (depth - 1) cs with
      | .error e => .error e
      | .ok ts => .ok (.rbrack :: ts)
    else if c = '(' then
      match lexToks fuel (depth + 1) cs with
      | .error e => .error e
      | .ok ts => .ok (.lparen :: ts)
    else if c = ')' then
      match lexToks fuel (depth - 1) cs with
      | .error e => .error e
      | .ok ts => .ok (.rparen :: ts)
    else if c = ',' then
      match lexToks fuel depth cs with
      | .error e => .error e
      | .ok ts => .ok (.comma :: ts)
    else if c = '=' then
      match lexToks fuel depth cs with
      | .error e => .error e
      | .ok ts => .ok (.eq :: ts)
    else if c = '.' then
      match lexToks fuel depth cs with
      | .error e => .error e
      | .ok ts => .ok (.dot :: ts)
    else if c = ';' then
      match lexToks fuel depth cs with
      | .error e => .error e
      | .ok ts => .ok (.semi :: ts)
    else if c = ':' then
      match lexToks fuel depth cs with
      | .error e => .error e
      | .ok ts => .ok (.colon :: ts)
    else .error (.badChar c)

/-- Tokenize a source string. -/
def tokenize (src : String) : Except LexErr (List Tok) :=
  lexToks (src.data.length + 1) 0 src.data

/-- Parsed Python expressions of the modelled fragment. -/
inductive PExpr where
  | nameE (x : String)
  | numE (s : String)
  | strE (s : String)
  | listE (es : List PExpr)
  | tupleE (es : List PExpr)
  | attrE (e : PExpr) (fld : String)
  | callE (f : PExpr) (args : List (Option String × PExpr))

/-- Parsed simple statements: an assignment or an expression statement. -/
inductive PStmt where
  | assignS (target : PExpr) (value : PExpr)
  | exprS (e : PExpr)

/-- Parse errors. -/
inductive ParseErr where
  | lexErr (e : LexErr)
  | unexpected (t : Tok)
  | unexpectedEnd
  | outOfFuel
deriving DecidableEq, Repr

mutual

/-- Parse one expression: an atom followed by its trailers. -/
def parseExpr : Nat → List Tok → Except ParseErr (PExpr × List Tok)
  | 0, _ => .error .outOfFuel
  | fuel + 1, ts =>
    match parseAtom fuel ts with
    | .error e => .error e
    | .ok (a, ts2) => parseTrailers fuel a ts2

/-- Parse an atom: a name, literal, list display or parenthesized form. -/
def parseAtom : Nat → List Tok → Except ParseErr (PExpr × List Tok)
  | 0, _ => .error .outOfFuel
  | fuel + 1, ts =>
    match ts with
    | .ident x :: ts2 => .ok (.nameE x, ts2)
    | .numLit s :: ts2 => .ok (.numE s, ts2)
    | .strLit s :: ts2 => .ok (.strE s, ts2)
    | .lbrack :: .rbrack :: ts2 => .ok (.listE [], ts2)
    | .lbrack :: ts2 =>
      match parseExprSeq fuel ts2 with
      | .error e => .error e
      | .ok (es, ts3) =>
        match ts3 with
        | .rbrack :: ts4 => .ok (.listE es, ts4)
        | t :: _ => .error (.unexpected t)
        | [] => .error .unexpectedEnd
    | .lparen :: .rparen :: ts2 => .ok (.tupleE [], ts2)
    | .lparen :: ts2 =>
      match parseExprSeq fuel ts2 with
      | .error e => .error e
      | .ok (es, ts3) =>
        match ts3 with
        | .rparen :: ts4 =>
          .ok (match es with | [e] => e | _ => .tupleE es, ts4)
        | t :: _ => .error (.unexpected t)
        | [] => .error .unexpectedEnd
    | t :: _ => .error (.unexpected t)
    | [] => .error .unexpectedEnd

/-- Parse a comma-separated expression sequence, tolerating a trailing
comma before a closing bracket. -/
def parseExprSeq : Nat → List Tok → Except ParseErr (List PExpr × List Tok)
  | 0, _ => .error .outOfFuel
  | fuel + 1, ts =>
    match parseExpr fuel ts with
    | .error e => .error e
    | .ok (e, ts2) =>
      match ts2 with
      | .comma :: .rbrack :: ts3 => .ok ([e], .rbrack :: ts3)
      | .comma :: .rparen :: ts3 => .ok ([e], .rparen :: ts3)
      | .comma :: ts3 =>
        match parseExprSeq fuel ts3 with
        | .error er => .error er
        | .ok (es, ts4) => .ok (e :: es, ts4)
      | _ => .ok ([e], ts2)

/-- Parse trailers: attribute accesses and call argument lists. -/
def parseTrailers : Nat → PExpr → List Tok → Except ParseErr (PExpr × List Tok)
  | 0, _, _ => .error .outOfFuel
  | fuel + 1, a, ts =>
    match ts with
    | .dot :: .ident f :: ts2 => parseTrailers fuel (.attrE a f) ts2
    | .dot :: t :: _ => .error (.unexpected t)
    | .dot :: [] => .error .unexpectedEnd
    | .lparen :: .rparen :: ts2 => parseTrailers fuel (.callE a []) ts2
    | .lparen :: ts2 =>
      match parseArgs fuel ts2 with
      | .error e => .error e
      | .ok (args, ts3) =>
        match ts3 with
        | .rparen :: ts4 => parseTrailers fuel (.callE a args) ts4
        | t :: _ => .error (.unexpected t)
        | [] => .error .unexpectedEnd
    | _ => .ok (a, ts)

/-- Parse a comma-separated call-argument list of positional and keyword
arguments, tolerating a trailing comma. -/
def parseArgs : Nat → List Tok →
    Except ParseErr (List (Option String × PExpr) × List Tok)
  | 0, _ => .error .outOfFuel
  | fuel + 1, ts =>
    match
      ((match ts with
        | .ident x :: .eq :: ts2 =>
          match parseExpr fuel ts2 with
          | .error e => .error e
          | .ok (e, ts3) => .ok ((some x, e), ts3)
        | _ =>
          match parseExpr fuel ts with
          | .error e => .error e
          | .ok (e, ts2) => .ok ((none, e), ts2)) :
        Except ParseErr ((Option String × PExpr) × List Tok)) with
    | .error e => .error e
    | .ok (arg, ts2) =>
      match ts2 with
      | .comma :: .rparen :: ts3 => .ok ([arg], .rparen :: ts3)
      | .comma :: ts3 =>
        match parseArgs fuel ts3 with
        | .error er => .error er
        | .ok (args, ts4) => .ok (arg :: args, ts4)
      | _ => .ok ([arg], ts2)

end

/-- Parse one simple statement: a target list optionally assigned a value
list. -/
def parseSimpleStmt (fuel : Nat) (ts : List Tok) :
    Except ParseErr (PStmt × List Tok) :=
  match parseExprSeq fuel ts with
  | .error e => .error e
  | .ok (es, ts2) =>
    let lhs : PExpr := match es with | [e] => e | _ => .tupleE es
    match ts2 with
    | .eq :: ts3 =>
      match parseExprSeq fuel ts3 with
      | .error e => .error e
      | .ok (es2, ts4) =>
        .ok (.assignS lhs (match es2 with | [e] => e | _ => .tupleE es2), ts4)
    | _ => .ok (.exprS lhs, ts2)

/-- Parse a token stream as a sequence of logical lines, each holding
simple statements separated by `;` and ended by a newline or the end of
input.  A token left over after a statement chain is a syntax error, as in
Python. -/
def parseStmts : Nat → List Tok → Except ParseErr (List PStmt)
  | 0, _ => .error .outOfFuel
  | _ + 1, [] => .ok []
  | fuel + 1, .newline :: ts => parseStmts fuel ts
  | fuel + 1, ts =>
    match parseSimpleStmt fuel ts with
    | .error e => .error e
    | .ok (s, ts2) =>
      match ts2 with
      | [] => .ok [s]
      | .newline :: ts3 =>
        match parseStmts fuel ts3 with
        | .error e => .error e
        | .ok ss => .ok (s :: ss)
      | .semi :: ts3 =>
        match parseStmts fuel ts3 with
        | .error e => .error e
        | .ok ss => .ok (s :: ss)
      | t :: _ => .error (.unexpected t)

/-- Tokenize and parse a piece of Python source. -/
def parseSource (src : String) : Except ParseErr (List PStmt) :=
  match tokenize src with
  | .error e => .error (.lexErr e)
  | .ok ts => parseStmts (ts.length * 2 + 10) ts

/-- Source line 33: the cell marker comment. -/
def cellLine33 : String := "# %% plt as matplotlib.pyplot import tags=[\"hide-code\"]"

/-- Source line 35. -/
def cellLine35 : String :=
  "labels = [\x27G1\x27, \x27G2\x27, \x27G3\x27, \x27G4\x27, \x27G6\x27] men_means = [20, 35, 30, 35, 27]"

/-- Source line 36. -/
def cellLine36 : String :=
  "women_means = [25, 32, 34, 20, 25] men_std = [2, 3, 4, 1, 2] women_std ="

/-- Source line 37. -/
def cellLine37 : String :=
  "[3, 5, 2, 3, 3] width = 0.35 \x5c# the width of the bars: can also be"

/-- Source line 38. -/
def cellLine38 : String := "len(x) sequence"

/-- Source line 40. -/
def cellLine40 : String := "fig, ax = plt.subplots()"

/-- Source line 42. -/
def cellLine42 : String :=
  "ax.bar(labels, men_means, width, yerr=men_std, label=\x27Men\x27)"

/-- Source line 43. -/
def cellLine43 : String :=
  "ax.bar(labels, women_means, width, yerr=women_std, bottom=men_means,"

/-- Source line 44. -/
def cellLine44 : String := "label=\x27Women\x27)"

/-- Source line 46. -/
def cellLine46 : String :=
  "ax.set_ylabel(\x27Scores\x27) ax.set_title(\x27Scores broken out by group and"

/-- Source line 47. -/
def cellLine47 : String := "gender\x27) ax.legend() plt.show() \x5c\x60\x5c\x60\x5c\x60"

/-- The code cell's lines, transcribed verbatim from source lines 33-47. -/
def cellSourceLines : List String :=
  [cellLine33, "", cellLine35, cellLine36, cellLine37, cellLine38, "",
   cellLine40, "", cellLine42, cellLine43, cellLine44, "", cellLine46,
   cellLine47]

/-- The code cell as one source string. -/
def cellSource : String := String.intercalate "\n" cellSourceLines

/-- Whether the first list is a prefix of the second. -/
def listPrefix : List Char → List Char → Bool
  | [], _ => true
  | _ :: _, [] => false
  | p :: ps, c :: cs => p = c && listPrefix ps cs

/-- Whether the second list contains the first as a contiguous sublist. -/
def listContains (pat : List Char) : List Char → Bool
  | [] => pat.isEmpty
  | c :: cs => listPrefix pat (c :: cs) || listContains pat cs

/-- The characters of a source line before any `#` comment marker. -/
def codePart (l : String) : List Char :=
  l.data.takeWhile (fun c => c ≠ '#')

/-- Whether the non-comment part of a line mentions the word `import`. -/
def codeMentionsImport (l : String) : Bool :=
  listContains ['i', 'm', 'p', 'o', 'r', 't'] (codePart l)

/-- Modelled from the spec: the external converter (the missing `quarto
render` pipeline named on header line 10) consumes the file and produces
the slide outputs "per the declared configuration options in the header"
(spec section 6); the `execute` option declares whether the converter
evaluates the code cell, and an absent or non-boolean option defaults to
executing. -/
def shouldExecuteCell (h : Yaml) : Bool :=
  match h.lookup "execute" with
  | some (.bool b) => b
  | _ => true

/-- Modelled from the spec: the converter evaluates (parses) the cell
source only when the header directs it to; otherwise the cell is carried
into the slides without evaluation (`none`). -/
def pipelineCellEvaluation (h : Yaml) (src : String) :
    Option (Except ParseErr (List PStmt)) :=
  if shouldExecuteCell h then some (parseSource src) else none

/-- The environment after running the cell from the empty environment:
newest binding first. -/
def cellFinalEnv : Env :=
  [("ax", .obj "Axes"), ("fig", .obj "Figure"), ("width", .num 0.35),
   ("women_std", .numList women_std), ("men_std", .numList men_std),
   ("women_means", .numList women_means), ("men_means", .numList men_means),
   ("labels", .strList labels)]

/-! ### Theorems -/

/-- C1: for the five literal input sequences of the code cell, rendering
the chart raises no error, and the resulting figure has exactly two bar
series of length 5 each, y-axis label "Scores", title "Scores broken out
by group and gender", and exactly the two legend entries "Men" and
"Women". -/
theorem cell_render_ok :
    runCell = some (.ok (cellFinalEnv, cellFigure)) ∧
    cellFigure.series.length = 2 ∧
    cellFigure.series.all (fun s => s.heights.length == 5) = true ∧
    cellFigure.ylabel = some "Scores" ∧
    cellFigure.title = some "Scores broken out by group and gender" ∧
    cellFigure.legendEntries = some ["Men", "Women"] :=
  ⟨rfl, rfl, rfl, rfl, rfl, rfl⟩

/-- C2: the code cell, taken as Python source, is syntactically invalid:
the whole cell fails to tokenize at the stray backslash escape, line 35
fails to parse because two assignments are joined without a separator,
line 46 has an unterminated string, and no non-comment part of any cell
line even mentions `import`, so evaluation fails before any plotting call
runs. -/
theorem cell_source_not_python :
    parseSource cellSource = .error (.lexErr .strayBackslash) ∧
    parseSource cellLine35 = .error (.unexpected (.ident "men_means")) ∧
    tokenize cellLine46 = .error .unterminatedString ∧
    cellSourceLines.all (fun l => !codeMentionsImport l) = true :=
  ⟨rfl, rfl, rfl, rfl⟩

/-- C3: the five parallel sequences of the code cell all have length 5. -/
theorem five_sequences_length_five :
    labels.length = 5 ∧ men_means.length = 5 ∧ women_means.length = 5 ∧
    men_std.length = 5 ∧ women_std.length = 5 :=
  ⟨rfl, rfl, rfl, rfl, rfl⟩

/-- C4: the cell issues exactly two bar calls, with `yerr` arguments
`men_std` and `women_std` respectively, the second with
`bottom=men_means`; in the rendered figure the second (Women) series
therefore sits atop the first (Men) series, whose heights are exactly the
second series' bottoms. -/
theorem two_bar_calls_stacked :
    barCalls cellStmts =
      [(.name "labels", .name "men_means", .name "width",
        some (.name "men_std"), none, some (.lit (.str "Men"))),
       (.name "labels", .name "women_means", .name "width",
        some (.name "women_std"), some (.name "men_means"),
        some (.lit (.str "Women")))] ∧
    cellFigure.series.map BarSeries.yerr = [some men_std, some women_std] ∧
    cellFigure.series.map BarSeries.bottoms = [List.replicate 5 0, men_means] ∧
    cellFigure.series.map BarSeries.heights = [men_means, women_means] ∧
    (cellFigure.series.map BarSeries.bottoms).getD 1 [] =
      (cellFigure.series.map BarSeries.heights).getD 0 [] :=
  ⟨rfl, rfl, rfl, rfl, rfl⟩

/-- C5: the literal sequences are exactly `men_means = [20, 35, 30, 35, 27]`,
`women_means = [25, 32, 34, 20, 25]` and
`labels = [G1, G2, G3, G4, G6]`, the last label being `G6` and not `G5`. -/
theorem literal_inputs_exact :
    men_means = [20, 35, 30, 35, 27] ∧
    women_means = [25, 32, 34, 20, 25] ∧
    labels = ["G1", "G2", "G3", "G4", "G6"] ∧
    labels.getD 4 "" = "G6" ∧ labels.getD 4 "" ≠ "G5" ∧
    List.lookup "labels" (assignments cellStmts) =
      some (.lit (.strList ["G1", "G2", "G3", "G4", "G6"])) :=
  ⟨rfl, rfl, rfl, rfl, by decide, rfl⟩

/-- C6: the cell defines exactly one width literal, `0.35`, which is
positive; both bar calls pass that single scalar, so the bar-width
configuration is one positive scalar shared by the two calls. -/
theorem width_single_positive_scalar :
    (assignments cellStmts).filter (fun p => p.1 == "width") =
      [("width", .lit (.num width))] ∧
    width = 35/100 ∧ (0:ℚ) < width ∧
    (barCalls cellStmts).map (fun c => c.2.2.1) =
      [.name "width", .name "width"] ∧
    (∃ w : ℚ, (0:ℚ) < w ∧ cellFigure.series.map BarSeries.width = [w, w]) :=
  ⟨rfl,
   by
     show Rat.ofScientific 35 true 2 = 35/100
     rw [Rat.ofScientific_true_def, Rat.mkRat_eq_div]
     norm_num,
   by
     show (0:ℚ) < Rat.ofScientific 35 true 2
     rw [Rat.ofScientific_true_def, Rat.mkRat_eq_div]
     norm_num,
   rfl,
   ⟨width,
    by
      show (0:ℚ) < Rat.ofScientific 35 true 2
      rw [Rat.ofScientific_true_def, Rat.mkRat_eq_div]
      norm_num,
    rfl⟩⟩

/-- C7: the header declares exactly the three output format targets `pdf`
(default), `beamer` with `keep-tex: true` and `revealjs` with template
`revealjs.template`, a Python 3 kernelspec, and a jupytext percent-format
text representation. -/
theorem header_three_formats_kernelspec :
    (headerYaml.lookup "format").map Yaml.keys =
      some ["pdf", "beamer", "revealjs"] ∧
    (headerYaml.lookup "format").bind (Yaml.lookup "pdf") =
      some (.str "default") ∧
    ((headerYaml.lookup "format").bind (Yaml.lookup "beamer")).bind
      (Yaml.lookup "keep-tex") = some (.bool true) ∧
    ((headerYaml.lookup "format").bind (Yaml.lookup "revealjs")).bind
      (Yaml.lookup "template") = some (.str "revealjs.template") ∧
    ((headerYaml.lookup "jupyter").bind (Yaml.lookup "kernelspec")).bind
      (Yaml.lookup "display_name") = some (.str "Python 3") ∧
    ((headerYaml.lookup "jupyter").bind (Yaml.lookup "kernelspec")).bind
      (Yaml.lookup "language") = some (.str "python") ∧
    ((headerYaml.lookup "jupyter").bind (Yaml.lookup "kernelspec")).bind
      (Yaml.lookup "name") = some (.str "python3") ∧
    (((headerYaml.lookup "jupyter").bind (Yaml.lookup "jupytext")).bind
      (Yaml.lookup "text_representation")).bind (Yaml.lookup "format_name") =
      some (.str "percent") :=
  ⟨rfl, rfl, rfl, rfl, rfl, rfl, rfl, rfl⟩

/-- C8: the cell is a straight-line sequence of assignments and calls with
no conditional, loop or function definition, and running it from any
environment and figure state completes (normally or with a runtime error)
with one fuel unit per statement. -/
theorem cell_straight_line_terminates :
    cellStmts.all Stmt.isStraightLine = true ∧
    ∀ (env : Env) (fig : Figure),
      (exec (cellStmts.length + 1) cellStmts env fig).isSome = true :=
  ⟨rfl, fun _ _ => rfl⟩

/-- C9: the header sets `execute: false`, so the conversion pipeline is
directed not to execute the code cell and never evaluates its malformed
source. -/
theorem execute_false_no_evaluation :
    headerYaml.lookup "execute" = some (.bool false) ∧
    shouldExecuteCell headerYaml = false ∧
    pipelineCellEvaluation headerYaml cellSource = none :=
  ⟨rfl, rfl, rfl⟩

/-- C10: every input of the cell is a literal and the cell reads no
ambient state: runs from any two starting environments and figure states
produce the same figure, namely `cellFigure`. -/
theorem cell_render_deterministic :
    ∀ (env1 env2 : Env) (fig1 fig2 : Figure),
      resultFigure (exec (cellStmts.length + 1) cellStmts env1 fig1) =
        resultFigure (exec (cellStmts.length + 1) cellStmts env2 fig2) ∧
      resultFigure (exec (cellStmts.length + 1) cellStmts env1 fig1) =
        some cellFigure :=
  fun _ _ _ _ => ⟨rfl, rfl⟩

end MplSlides

